import Mathlib

/-!
Formal model of the Validity fingerprint sensor driver
(libfprint, `src/libfprint/drivers/validity.c`).

The development shallowly embeds the transport layer (`send`, `recv`, `swap`,
`load`), the command encoders, the protocol blocks (`do_q`, `do_b`, `do_c`,
`do_d`, `do_e`, `do_1`, `do_2`), the four state machines (`m_init`, `m_read`,
`m_next`, `m_loop`) together with the generic hierarchical state-machine
engine, the polling finger-detection loop and the activation and deactivation
entry points.

Underlying USB bulk transfers are out of scope of the driver; their results
(the libusb return code and the transferred byte count) are supplied by the
environment as explicit `Outcome` inputs.  All protocol handlers of the driver
are straight-line code: each one performs a fixed block of transfers and
unconditionally advances its machine, so the sequence of USB operations a
machine performs is a fixed trace, modelled by `List Action`, and the effect of
running that trace against the device state is computed by `execActs`.
-/

namespace Validity

/-- Device-private state (struct validity_dev, validity.c line 109): the
per-session sequence counter.  The C field is an int that starts at 0 and is
only ever incremented, so it is modelled as a Nat. -/
structure ValidityDev where
  seqnum : Nat
deriving DecidableEq, Repr

/-- lo(n) = n & 0xff (validity.c line 115). -/
def lo (n : Nat) : Nat := n &&& 0xff

/-- hi(n) = (n >> 8) & 0xff (validity.c line 120). -/
def hi (n : Nat) : Nat := (n >>> 8) &&& 0xff

/-- Portion of dev_init relevant to the protocol state (validity.c line 602):
a freshly opened device has sequence counter 0. -/
def dev_init : ValidityDev := ⟨0⟩

/-- Outcome of one underlying libusb bulk transfer, supplied by the
environment: `r` is the libusb return code (negative on failure,
LIBUSB_ERROR_IO = -1, LIBUSB_ERROR_TIMEOUT = -7), `t` is the number of bytes
actually transferred. -/
structure Outcome where
  r : Int
  t : Nat
deriving DecidableEq, Repr

/-- send (validity.c lines 136-160): stamps bytes 0 and 1 of the frame with
the low and high byte of the current sequence counter, then performs the bulk
write.  Returns the libusb error code when the write itself failed, -EIO = -5
(errno EIO is 5) when the write reported fewer bytes transferred than
requested, and 0 otherwise.  The result is the triple of the return code, the
device state after the call and the frame buffer after the call. -/
def send (dv : ValidityDev) (data : List Nat) (len : Nat) (r : Int) (t : Nat) :
    Int × ValidityDev × List Nat :=
  let stamped := (data.set 0 (lo dv.seqnum)).set 1 (hi dv.seqnum)
  if r < 0 then
    (r, dv, stamped)
  else if t < len then
    (-5, dv, stamped)
  else
    (0, dv, stamped)

/-- recv (validity.c lines 162-180): performs the bulk read; a negative return
code other than the tolerated timeout LIBUSB_ERROR_TIMEOUT = -7 is returned as
is with the counter untouched; in every other case the counter is incremented
exactly once and 0 is returned.  The transferred byte count `t` is ignored, as
in the C code, which never reads the variable after the libusb call. -/
def recv (dv : ValidityDev) (r : Int) (_t : Nat) : Int × ValidityDev :=
  if r < 0 ∧ r ≠ -7 then
    (r, dv)
  else
    (0, { dv with seqnum := dv.seqnum + 1 })

/-- swap (validity.c lines 182-188): one command exchange, a send on endpoint
1 followed by usleep(2000) and a recv of 0x40 bytes on endpoint 1.  The return
values of both send and recv are discarded by swap; only the device state
survives.  `o1` is the outcome of the bulk write, `o2` of the bulk read. -/
def swap (dv : ValidityDev) (data : List Nat) (len : Nat) (o1 o2 : Outcome) :
    ValidityDev :=
  let s := send dv data len o1.r o1.t
  let rc := recv s.2.1 o2.r o2.t
  rc.2

/-- USB operations performed by the driver, recorded as a trace: a bulk write
of a command frame on an endpoint, a bulk read of a given length on an
endpoint, or a sleep in microseconds. -/
inductive Action where
  | bulkOut (ep : Nat) (frame : List Nat)
  | bulkIn (ep : Nat) (len : Nat)
  | sleepA (usec : Nat)
deriving DecidableEq, Repr

/-- Trace of one swap call (validity.c lines 182-188): bulk write of the frame
on endpoint 1, usleep(2000), bulk read of 0x40 bytes on endpoint 1. -/
def swapT (frame : List Nat) : List Action :=
  [.bulkOut 1 frame, .sleepA 2000, .bulkIn 1 0x40]

/-- Trace of one load call (validity.c lines 190-194): bulk read of 0x40000
bytes on endpoint 2, the bulk image-data endpoint. -/
def load : List Action :=
  [.bulkIn 2 0x40000]

/-- Reset (validity.c lines 228-232): opcode 0x0001 at bytes 4-5. -/
def Reset : List Action :=
  swapT [0x00, 0x00, 0x00, 0x00, 0x01, 0x00, 0x00]

/-- GetVersion (validity.c lines 238-242): opcode 0x0002 at bytes 4-5. -/
def GetVersion : List Action :=
  swapT [0x00, 0x00, 0x00, 0x00, 0x02, 0x00, 0x00]

/-- GetParam (validity.c lines 256-262): opcode 0x0004, parameter id in
little-endian order at bytes 6-7. -/
def GetParam (param : Nat) : List Action :=
  swapT [0x00, 0x00, 0x00, 0x00, 0x04, 0x00, lo param, hi param]

/-- SetParam (validity.c lines 268-276): opcode 0x0005, parameter id at bytes
6-7 and value at bytes 8-9, both little-endian. -/
def SetParam (param value : Nat) : List Action :=
  swapT [0x00, 0x00, 0x00, 0x00, 0x05, 0x00, lo param, hi param, lo value, hi value]

/-- GetConfiguration (validity.c lines 282-286): opcode 0x0006. -/
def GetConfiguration : List Action :=
  swapT [0x00, 0x00, 0x00, 0x00, 0x06, 0x00]

/-- AbortPrint (validity.c lines 292-296): opcode 0x000e. -/
def AbortPrint : List Action :=
  swapT [0x00, 0x00, 0x00, 0x00, 0x0e, 0x00]

/-- GetFingerState (validity.c lines 302-306): opcode 0x0016. -/
def GetFingerState : List Action :=
  swapT [0x00, 0x00, 0x00, 0x00, 0x16, 0x00]

/-- do_q (validity.c lines 310-314): GetVersion, then SetParam(0x55, 0x08). -/
def do_q : List Action :=
  GetVersion ++ SetParam 0x55 0x08

/-- do_b (validity.c lines 316-325): GetParam(0x14), AbortPrint, a flush read
of the bulk data endpoint, GetParam(0x11), SetParam(0x62, 0x32). -/
def do_b : List Action :=
  GetParam 0x14 ++ AbortPrint ++ load ++ GetParam 0x11 ++ SetParam 0x62 0x32

/-- do_c (validity.c lines 327-339): the diagnostic block of ten exchanges. -/
def do_c : List Action :=
  GetConfiguration ++ GetParam 0x2e ++ GetVersion ++ AbortPrint ++
    SetParam 0x55 0x08 ++ SetParam 0x55 0x08 ++ SetParam 0x55 0x08 ++
    GetParam 0x14 ++ GetParam 0x11 ++ SetParam 0x62 0x32

/-- do_d (validity.c lines 341-344): a single GetParam(0x14). -/
def do_d : List Action :=
  GetParam 0x14

/-- do_e (validity.c lines 346-352): one swap of the 14-byte GetPrint frame
with the large-capture payload. -/
def do_e : List Action :=
  swapT [0x00, 0x00, 0x00, 0x00, 0x03, 0x00, 0x88, 0x13, 0x01, 0x00, 0x00, 0x00, 0x01, 0x01]

/-- do_1 (validity.c lines 354-358): the body only declares the finger-state
frame; the poll and the large-image load are commented out, so the function
performs no transfer at all. -/
def do_1 : List Action :=
  []

/-- do_2 (validity.c lines 360-365): one swap of the 14-byte GetPrint frame
with the small-capture payload, followed by a load of the small image. -/
def do_2 : List Action :=
  swapT [0x00, 0x00, 0x00, 0x00, 0x03, 0x00, 0x14, 0x00, 0x00, 0x01, 0x00, 0x00, 0x00, 0x01] ++ load

/-- State labels, named after the enum constants of validity.c
(lines 369-374, 400-404, 425-432, 539-544). -/
inductive StateName where
  | M_NEXT_D
  | M_NEXT_B
  | M_NEXT_E
  | M_READ_B
  | M_READ_2
  | M_LOOP_1
  | M_LOOP_READ
  | M_LOOP_C
  | M_LOOP_2
  | M_LOOP_NEXT
  | M_INIT_Q
  | M_INIT_READ
  | M_INIT_NEXT
deriving DecidableEq, Repr

/-- Modelled from the spec: the state list of one hierarchical state machine
(struct fpi_ssm of fp_internal.h, whose implementation is not under src).  A
machine is an ordered sequence of states; on entry a state either performs a
fixed block of transfers and advances (emit, the handler calls
fpi_ssm_next_state), or starts a child machine and waits for its completion
(spawn, fpi_ssm_start_subsm), or sets the error slot (markErr,
fpi_ssm_mark_aborted).  The machines of this driver are built below from the
handlers m_init_state, m_read_state, m_next_state and m_loop_state, all of
which are straight-line: they emit a fixed block and advance, and never mark
an error. -/
inductive Machine where
  | done
  | emit (nm : StateName) (acts : List Action) (rest : Machine)
  | spawn (nm : StateName) (sub : Machine) (rest : Machine)
  | markErr (nm : StateName) (e : Int) (rest : Machine)

/-- Modelled from the spec: the run of the hierarchical state-machine engine
(fpi_ssm_start, fpi_ssm_next_state, fpi_ssm_start_subsm and the completion
callback, not under src).  States run in order; an emitted block is appended
to the trace of USB operations; a spawned child runs to completion before the
parent advances, and a child that completes with a nonzero error slot
propagates the error to the parent, skipping the remaining parent states; a
markErr state sets the error slot and skips every remaining state of its
machine.  The result is the list of visited states, the trace of USB
operations performed, and the terminal error slot (0 is success, matching the
use of ssm->error in the C code). -/
def fpi_ssm_run : Machine → List StateName × List Action × Int
  | .done => ([], [], 0)
  | .emit nm acts rest =>
    let r := fpi_ssm_run rest
    (nm :: r.1, acts ++ r.2.1, r.2.2)
  | .markErr nm e _ => ([nm], [], e)
  | .spawn nm sub rest =>
    let c := fpi_ssm_run sub
    if c.2.2 = 0 then
      let r := fpi_ssm_run rest
      (nm :: c.1 ++ r.1, c.2.1 ++ r.2.1, r.2.2)
    else
      (nm :: c.1, c.2.1, c.2.2)

/-- m_read (validity.c lines 400-421): states B then 2. -/
def m_read : Machine :=
  .emit .M_READ_B do_b (.emit .M_READ_2 do_2 .done)

/-- m_next (validity.c lines 369-396): states D, B, E. -/
def m_next : Machine :=
  .emit .M_NEXT_D do_d (.emit .M_NEXT_B do_b (.emit .M_NEXT_E do_e .done))

/-- m_init (validity.c lines 539-569): state Q, then the m_read child, then
the m_next child. -/
def m_init : Machine :=
  .emit .M_INIT_Q do_q (.spawn .M_INIT_READ m_read (.spawn .M_INIT_NEXT m_next .done))

/-- m_loop (validity.c lines 425-468): states 1, m_read child, C, 2, m_next
child. -/
def m_loop : Machine :=
  .emit .M_LOOP_1 do_1 (.spawn .M_LOOP_READ m_read
    (.emit .M_LOOP_C do_c (.emit .M_LOOP_2 do_2 (.spawn .M_LOOP_NEXT m_next .done))))

/-- Execution of a trace of USB operations against the device state, with the
outcome of each bulk transfer supplied by the environment (one Outcome per
bulkOut or bulkIn, in order).  Returns the list of transport return codes in
transfer order, and the final device state.  A bulkOut is a send, a bulkIn is
a recv; the driver code (swap, load) discards these return codes, which is
why they appear nowhere in `fpi_ssm_run`.  If the outcome script is
exhausted, the remaining operations are not executed. -/
def execActs : ValidityDev → List Outcome → List Action → List Int × ValidityDev
  | dv, _, [] => ([], dv)
  | dv, outs, .sleepA _ :: rest => execActs dv outs rest
  | dv, o :: outs, .bulkOut _ f :: rest =>
    let s := send dv f f.length o.r o.t
    let p := execActs s.2.1 outs rest
    (s.1 :: p.1, p.2)
  | dv, o :: outs, .bulkIn _ _ :: rest =>
    let rc := recv dv o.r o.t
    let p := execActs rc.2 outs rest
    (rc.1 :: p.1, p.2)
  | dv, [], .bulkOut _ _ :: _ => ([], dv)
  | dv, [], .bulkIn _ _ :: _ => ([], dv)

/-- Callbacks of the driver toward the generic imaging layer
(fpi_imgdev_activate_complete, fpi_imgdev_deactivate_complete and the start of
finger detection), plus the cancellation and release of a pending libusb
transfer (libusb_cancel_transfer / libusb_free_transfer).  The cancelTransfer
constructor is present in the vocabulary so that its absence from a trace can
be stated. -/
inductive DriverCb where
  | activateComplete (status : Int)
  | startFingerDetection
  | deactivateComplete
  | cancelTransfer
deriving DecidableEq, Repr

/-- m_init_complete (validity.c lines 571-579): reports the terminal error of
the init machine through fpi_imgdev_activate_complete and, only when the error
slot is 0, starts finger detection. -/
def m_init_complete (e : Int) : List DriverCb :=
  DriverCb.activateComplete e :: (if e = 0 then [DriverCb.startFingerDetection] else [])

/-- dev_deactivate (validity.c lines 592-595): the whole body is a single call
to fpi_imgdev_deactivate_complete. -/
def dev_deactivate : List DriverCb :=
  [DriverCb.deactivateComplete]

/-- Polling loop of start_finger_detection (validity.c lines 488-491).  The
local buffer rr is declared but never written: the loop body writes the
response of each getFingerState exchange into the local buffer of swap, which
is discarded, so the guard re-reads the same unwritten byte rr[0x0a] on every
iteration.  `garbage` is the value that byte happens to hold; `script` is the
sequence of device responses, one consumed per exchange and never inspected;
`count` counts exchanges performed so far.  Each iteration sleeps 50000
microseconds and performs one exchange, then the guard exits the do-while when
the garbage byte equals 0x02.  The result is the number of exchanges
performed, or none when the fuel runs out, which models a loop that never
exits. -/
def pollLoop (garbage : Nat) : List (List Nat) → Nat → Nat → Option Nat
  | _, _, 0 => none
  | script, count, fuel + 1 =>
    if garbage ≠ 0x02 then
      pollLoop garbage script.tail (count + 1) fuel
    else
      some (count + 1)

/-- start_finger_detection (validity.c lines 480-504): runs the polling loop,
then returns unconditionally (line 493).  The asynchronous transfer submission
and, transitively, the Loop-machine launch in finger_detection_cb are
unreachable from it, which the Bool component records: it tells whether an
asynchronous poll was submitted, and it is false on every terminating run. -/
def start_finger_detection (garbage : Nat) (script : List (List Nat)) (fuel : Nat) :
    Option (Nat × Bool) :=
  match pollLoop garbage script 0 fuel with
  | none => none
  | some n => some (n, false)

/-- Device response with byte 0x0a equal to 0: finger absent. -/
def absentResp : List Nat :=
  List.replicate 0x0b 0

/-- Device response with byte 0x0a equal to 0x02: finger present. -/
def presentResp : List Nat :=
  List.replicate 0x0a 0 ++ [0x02]

/-- Scripted response sequence of two absent responses followed by one
present response. -/
def script3 : List (List Nat) :=
  [absentResp, absentResp, presentResp]

/-- One fully successful exchange: a send whose bulk write succeeds and
transfers every requested byte, followed by a recv whose bulk read succeeds.
Returns the frame as transmitted (after stamping) and the device state after
the receive. -/
def exchangeOk (dv : ValidityDev) (frame : List Nat) : List Nat × ValidityDev :=
  let s := send dv frame frame.length 0 frame.length
  let rc := recv s.2.1 0 0x40
  (s.2.2, rc.2)

/-- N consecutive fully successful exchanges of the given frame, starting
from a freshly opened device.  Returns the list of transmitted frames in
order and the final device state. -/
def runExchanges (frame : List Nat) : Nat → List (List Nat) × ValidityDev
  | 0 => ([], dev_init)
  | n + 1 =>
    let p := runExchanges frame n
    let e := exchangeOk p.2 frame
    (p.1 ++ [e.1], e.2)

/-- Tests whether an action is the bulk write of the GetVersion frame. -/
def isGetVersionFrame : Action → Bool
  | .bulkOut _ f => f == [0x00, 0x00, 0x00, 0x00, 0x02, 0x00, 0x00]
  | _ => false

/-- Tests whether an action is a bulk write, i.e. one command exchange. -/
def isBulkOut : Action → Bool
  | .bulkOut _ _ => true
  | _ => false

/-- Tests whether a callback is an activation-complete report. -/
def isActivate : DriverCb → Bool
  | .activateComplete _ => true
  | _ => false

/-- Tests whether a callback is the start of finger detection. -/
def isStartFD : DriverCb → Bool
  | .startFingerDetection => true
  | _ => false

/-- Closed form of send: the return code depends only on the write outcome,
the device state is returned unchanged, and the frame comes back stamped. -/
lemma send_eq (dv : ValidityDev) (data : List Nat) (len : Nat) (r : Int) (t : Nat) :
    send dv data len r t =
      ((if r < 0 then r else if t < len then (-5 : Int) else 0), dv,
        (data.set 0 (lo dv.seqnum)).set 1 (hi dv.seqnum)) := by
  unfold send
  by_cases h1 : r < 0
  · simp [h1]
  · by_cases h2 : t < len <;> simp [h1, h2]

/-- Stamping bytes 0 and 1 leaves the rest of the frame unchanged. -/
lemma set01_drop (data : List Nat) (a b : Nat) :
    ((data.set 0 a).set 1 b).drop 2 = data.drop 2 := by
  cases data with
  | nil => rfl
  | cons x xs =>
    cases xs with
    | nil => rfl
    | cons y l => rfl

/-- Stamping bytes 0 and 1 preserves the frame length. -/
lemma set01_length (data : List Nat) (a b : Nat) :
    ((data.set 0 a).set 1 b).length = data.length := by
  simp

/-- One fully successful exchange increments the sequence counter exactly
once, whatever the frame is. -/
lemma exchangeOk_seqnum (dv : ValidityDev) (frame : List Nat) :
    (exchangeOk dv frame).2.seqnum = dv.seqnum + 1 := by
  unfold exchangeOk
  rw [send_eq]
  simp [recv]

/-- The frame transmitted by a fully successful exchange carries the low and
high byte of the sequence counter in its first two bytes. -/
lemma exchangeOk_frame (dv : ValidityDev) (f0 f1 : Nat) (rest : List Nat) :
    (exchangeOk dv (f0 :: f1 :: rest)).1 = lo dv.seqnum :: hi dv.seqnum :: rest := by
  unfold exchangeOk
  rw [send_eq]
  simp [List.set]

/-- After N fully successful exchanges the sequence counter equals N. -/
lemma runExchanges_seqnum (frame : List Nat) : ∀ N, (runExchanges frame N).2.seqnum = N := by
  intro N
  induction N with
  | zero => rfl
  | succ n ih => simp [runExchanges, exchangeOk_seqnum, ih]

/-- The frames transmitted in N fully successful exchanges are, in order,
the original frame stamped with 0, 1, ..., N-1. -/
lemma runExchanges_frames (f0 f1 : Nat) (rest : List Nat) :
    ∀ N, (runExchanges (f0 :: f1 :: rest) N).1 =
      (List.range N).map (fun i => lo i :: hi i :: rest) := by
  intro N
  induction N with
  | zero => rfl
  | succ n ih =>
    rw [List.range_succ]
    simp [runExchanges, ih, exchangeOk_frame, runExchanges_seqnum]

/-- When the garbage byte differs from 0x02, the polling loop never exits,
whatever the scripted responses are. -/
lemma pollLoop_garbage_stuck (g : Nat) (hg : g ≠ 0x02) :
    ∀ fuel script count, pollLoop g script count fuel = none := by
  intro fuel
  induction fuel with
  | zero => intro script count; rfl
  | succ n ih =>
    intro script count
    simp only [pollLoop, if_pos hg]
    exact ih script.tail (count + 1)

/-- C1: after N consecutive fully successful exchanges from device open the
sequence counter equals N, and every frame transmitted is stamped, in bytes 0
and 1, with the low and high byte of the number of receives completed before
it; in particular frame N+1 carries (N & 0xff, (N >> 8) & 0xff).  The stamp
list equal to List.range also shows that no frame is ever stamped with a
value newer than the most recent completed receive. -/
theorem C1_counter_and_stamp (N f0 f1 : Nat) (rest : List Nat) :
    (runExchanges (f0 :: f1 :: rest) N).2.seqnum = N ∧
    (runExchanges (f0 :: f1 :: rest) (N + 1)).1.map (List.take 2) =
      (List.range (N + 1)).map (fun i => [lo i, hi i]) := by
  refine ⟨runExchanges_seqnum _ N, ?_⟩
  rw [runExchanges_frames]
  simp [List.map_map, Function.comp_def]

/-- C2, counterexample: a bulk write that fails with LIBUSB_ERROR_IO = -1
while transferring 0 of the 6 requested bytes makes send return -1, which is
not the TransferError code -EIO = -5, refuting the claim that every short
write yields -EIO; the counter is nevertheless unchanged. -/
theorem C2_short_write_cex :
    (send dev_init [0x00, 0x00, 0x00, 0x00, 0x16, 0x00] 6 (-1) 0).1 = -1 ∧
    ((send dev_init [0x00, 0x00, 0x00, 0x00, 0x16, 0x00] 6 (-1) 0).1 == (-5 : Int)) = false ∧
    (0 : Nat) < 6 ∧
    (send dev_init [0x00, 0x00, 0x00, 0x00, 0x16, 0x00] 6 (-1) 0).2.1.seqnum = 0 := by
  decide

/-- C2, amended: send returns the write's own error code when the bulk write
itself failed, the TransferError code -EIO = -5 when the write succeeded but
transferred fewer bytes than requested, and 0 otherwise; on every path the
session state, and with it the sequence counter, is unchanged — send never
increments it. -/
theorem C2_short_write (dv : ValidityDev) (data : List Nat) (len : Nat) (r : Int) (t : Nat) :
    (send dv data len r t).1 = (if r < 0 then r else if t < len then (-5 : Int) else 0) ∧
    (send dv data len r t).2.1.seqnum = dv.seqnum := by
  rw [send_eq]
  exact ⟨rfl, rfl⟩

/-- C3: recv returns the error and leaves the counter unchanged exactly when
the bulk read failed with an error other than the tolerated timeout -7; in
every other case it returns 0 and increments the counter exactly once; and
its result does not depend on how many bytes arrived. -/
theorem C3_recv_cases (dv : ValidityDev) (r : Int) (t t2 : Nat) :
    (r < 0 → r ≠ -7 → recv dv r t = (r, dv)) ∧
    (0 ≤ r ∨ r = -7 → recv dv r t = (0, ⟨dv.seqnum + 1⟩)) ∧
    recv dv r t = recv dv r t2 := by
  refine ⟨?_, ?_, rfl⟩
  · intro h1 h2
    simp [recv, h1, h2]
  · intro h
    have hc : ¬(r < 0 ∧ r ≠ -7) := by
      rcases h with h | h
      · intro hx
        exact absurd hx.1 (not_lt.mpr h)
      · intro hx
        exact hx.2 h
    simp [recv, hc]

/-- Witness for C3 at concrete inputs: a hard read error -4 is returned with
the counter untouched, and the tolerated timeout -7 increments the counter. -/
theorem C3_recv_cases_witness :
    recv ⟨5⟩ (-4) 9 = (-4, ⟨5⟩) ∧ recv ⟨5⟩ (-7) 1 = (0, ⟨6⟩) :=
  ⟨(C3_recv_cases ⟨5⟩ (-4) 9 9).1 (by decide) (by decide),
   (C3_recv_cases ⟨5⟩ (-7) 1 1).2.1 (Or.inr rfl)⟩

/-- C4, counterexample: running the Next machine in an environment whose very
first bulk write is short (0 of 8 bytes transferred, a TransferError: the
first transport return code is -5) still visits every state D, B, E and
completes with error slot 0 — the failure sets no error slot at any level and
skips nothing, because swap discards the return codes of send and recv. -/
theorem C4_error_discarded_cex :
    ((execActs dev_init (⟨0, 0⟩ :: List.replicate 12 ⟨0, 0x40000⟩)
        (fpi_ssm_run m_next).2.1).1.head? = some (-5)) ∧
    (fpi_ssm_run m_next).2.2 = 0 ∧
    (fpi_ssm_run m_next).1 = [.M_NEXT_D, .M_NEXT_B, .M_NEXT_E] := by
  decide

/-- C4, amended: transport errors inside an exchange are discarded by swap
and never reach any state machine: every machine of the driver visits all of
its states, in order, and completes with error slot 0; no ancestor error slot
is ever set and no state is ever skipped, whatever the transport outcomes
are (the engine run does not consult them, because every handler is
straight-line and unconditionally advances). -/
theorem C4_no_error_propagation :
    (fpi_ssm_run m_read).2.2 = 0 ∧
    (fpi_ssm_run m_next).2.2 = 0 ∧
    (fpi_ssm_run m_init).2.2 = 0 ∧
    (fpi_ssm_run m_loop).2.2 = 0 ∧
    (fpi_ssm_run m_read).1 = [.M_READ_B, .M_READ_2] ∧
    (fpi_ssm_run m_next).1 = [.M_NEXT_D, .M_NEXT_B, .M_NEXT_E] ∧
    (fpi_ssm_run m_init).1 =
      [.M_INIT_Q, .M_INIT_READ, .M_READ_B, .M_READ_2,
       .M_INIT_NEXT, .M_NEXT_D, .M_NEXT_B, .M_NEXT_E] ∧
    (fpi_ssm_run m_loop).1 =
      [.M_LOOP_1, .M_LOOP_READ, .M_READ_B, .M_READ_2,
       .M_LOOP_C, .M_LOOP_2, .M_LOOP_NEXT, .M_NEXT_D, .M_NEXT_B, .M_NEXT_E] := by
  decide

/-- C5: the Init machine visits Q, then the Read child's states B and 2
(small capture), then the Next child's states D, B, E, each exactly once, and
completes with error 0; its completion handler then reports exactly one
activation-complete with the terminal status, and starts finger detection
exactly when that status is 0 (success). -/
theorem C5_init_run :
    (fpi_ssm_run m_init).1 =
      [.M_INIT_Q, .M_INIT_READ, .M_READ_B, .M_READ_2,
       .M_INIT_NEXT, .M_NEXT_D, .M_NEXT_B, .M_NEXT_E] ∧
    (fpi_ssm_run m_init).2.2 = 0 ∧
    m_init_complete (fpi_ssm_run m_init).2.2 =
      [DriverCb.activateComplete 0, DriverCb.startFingerDetection] ∧
    (∀ e : Int, (m_init_complete e).filter isActivate = [DriverCb.activateComplete e]) ∧
    (∀ e : Int, ((m_init_complete e).filter isStartFD).length = if e = 0 then 1 else 0) := by
  refine ⟨by decide, by decide, by decide, ?_, ?_⟩
  · intro e
    by_cases h : e = 0 <;> simp [m_init_complete, isActivate, isStartFD, h]
  · intro e
    by_cases h : e = 0 <;> simp [m_init_complete, isActivate, isStartFD, h]

/-- C6: the polling loop's guard reads the uninitialized byte rr[0x0a], which
no exchange ever writes, so with the scripted responses absent, absent,
present the loop does not perform 3 exchanges: if the garbage byte happens to
be 0x02 it performs exactly 1 exchange, and otherwise it never exits; and a
terminating run of start_finger_detection never submits the poll that would
launch the Loop machine (the submission code is dead, after an unconditional
return). -/
theorem C6_polling_loop_bug :
    start_finger_detection 0x02 script3 100 = some (1, false) ∧
    (∀ fuel, start_finger_detection 0x00 script3 fuel = none) := by
  refine ⟨by decide, ?_⟩
  intro fuel
  unfold start_finger_detection
  rw [pollLoop_garbage_stuck 0x00 (by decide) fuel script3 0]

/-- C7: the Q warm-up block issues exactly two exchanges — one GetVersion and
one SetParam(0x55, 0x08) — not GetVersion twice followed by SetParam: the
GetVersion frame is written exactly once. -/
theorem C7_do_q_single_getversion :
    (do_q.filter isGetVersionFrame).length = 1 ∧
    (do_q.filter isBulkOut).length = 2 ∧
    do_q = [Action.bulkOut 1 [0x00, 0x00, 0x00, 0x00, 0x02, 0x00, 0x00],
            Action.sleepA 2000, Action.bulkIn 1 0x40,
            Action.bulkOut 1 [0x00, 0x00, 0x00, 0x00, 0x05, 0x00, 0x55, 0x00, 0x08, 0x00],
            Action.sleepA 2000, Action.bulkIn 1 0x40] := by
  decide

/-- C8: the B block performs, in this exact order, GetParam(0x14),
AbortPrint, a flush read of the bulk data endpoint (endpoint 2), GetParam
(0x11) and SetParam(0x62, 0x32), as witnessed by its full transfer trace. -/
theorem C8_do_b_order :
    do_b = [Action.bulkOut 1 [0x00, 0x00, 0x00, 0x00, 0x04, 0x00, 0x14, 0x00],
            Action.sleepA 2000, Action.bulkIn 1 0x40,
            Action.bulkOut 1 [0x00, 0x00, 0x00, 0x00, 0x0e, 0x00],
            Action.sleepA 2000, Action.bulkIn 1 0x40,
            Action.bulkIn 2 0x40000,
            Action.bulkOut 1 [0x00, 0x00, 0x00, 0x00, 0x04, 0x00, 0x11, 0x00],
            Action.sleepA 2000, Action.bulkIn 1 0x40,
            Action.bulkOut 1 [0x00, 0x00, 0x00, 0x00, 0x05, 0x00, 0x62, 0x00, 0x32, 0x00],
            Action.sleepA 2000, Action.bulkIn 1 0x40] := by
  decide

/-- C9, counterexample: deactivation performs no cancellation or release of
any transfer — its effect list contains no cancelTransfer — refuting the
claim that deactivating mid-poll cancels the outstanding transfer; it does
invoke deactivation-complete. -/
theorem C9_deactivate_cex :
    dev_deactivate.contains DriverCb.cancelTransfer = false ∧
    dev_deactivate.contains DriverCb.deactivateComplete = true := by
  decide

/-- C9, amended: deactivating the device invokes deactivation-complete,
exactly once, and does nothing else — in particular it cancels and releases
no transfer. -/
theorem C9_deactivate :
    dev_deactivate = [DriverCb.deactivateComplete] ∧
    (dev_deactivate.filter (fun c => c == DriverCb.cancelTransfer)).length = 0 := by
  decide

/-- C10: on every path, send leaves the session state untouched (the counter
is mutated by recv alone, as the swap equation shows: the device state after
a swap is exactly the device state recv computes), and modifies only bytes 0
and 1 of the frame: the frame keeps its length and everything from byte 2 on
— opcode and parameters — is unchanged. -/
theorem C10_send_frame_effect (dv : ValidityDev) (data : List Nat) (len : Nat)
    (r : Int) (t : Nat) (o1 o2 : Outcome) :
    (send dv data len r t).2.1 = dv ∧
    (send dv data len r t).2.2.drop 2 = data.drop 2 ∧
    (send dv data len r t).2.2.length = data.length ∧
    swap dv data len o1 o2 = (recv dv o2.r o2.t).2 := by
  refine ⟨?_, ?_, ?_, ?_⟩
  · rw [send_eq]
  · rw [send_eq]
    exact set01_drop data _ _
  · rw [send_eq]
    exact set01_length data _ _
  · unfold swap
    rw [send_eq]

end Validity
